import Mathlib

/-!
Verification of the product-inventory server (server.js, mockData.js).

The JavaScript source is shallowly embedded as Lean functions:

* JavaScript numbers that can arise in the request pipeline are modelled
  exactly where their special values matter: `parseInt` results live in
  `JsInt` (integer, negative zero, or NaN) and `parseFloat` / `Math.ceil`
  results live in `JsNum` (rational, positive or negative Infinity, or
  NaN).  Finite values
  are modelled as exact rationals; IEEE-754 rounding of decimal literals
  and overflow of very long digit strings to Infinity are not modelled
  (no claim in scope depends on them).
* `parseInt` / `parseFloat` follow the ECMAScript grammars (leading
  whitespace, optional sign, `0x` prefix for `parseInt`, decimal point,
  exponent and `Infinity` for `parseFloat`, longest valid prefix, NaN on
  no valid prefix).  Whitespace is ASCII whitespace; the JS functions
  additionally accept some exotic Unicode space characters.
* Strings are Lean strings; `toLowerCase` is modelled by `String.toLower`
  (ASCII case folding) and `localeCompare` by code-point comparison.
  No claim in scope depends on the exact collation of titles.
* The mutable module state (`products`, `apiKeys`) is passed explicitly;
  handlers are state transformers returning (response, new state).
  The two separate `Date.now()` readings in the key-issuance handler are
  two explicit parameters, mirroring lines 235 and 240 of server.js.
-/

/-- JavaScript double restricted to the values the pipeline produces:
NaN, the two infinities, or a finite value (exact rational model). -/
inductive JsNum where
  | nan : JsNum
  | inf : JsNum
  | negInf : JsNum
  | num : ℚ → JsNum

deriving instance DecidableEq, Repr for JsNum

/-- Result of `parseInt`: NaN, negative zero, or an integer. -/
inductive JsInt where
  | nan : JsInt
  | negZero : JsInt
  | int : ℤ → JsInt

deriving instance DecidableEq, Repr for JsInt

/-- Value of a decimal digit character. -/
def decDigit (c : Char) : Option ℕ :=
  if c.isDigit then some (c.toNat - 48) else none

/-- Value of a hexadecimal digit character. -/
def hexDigit (c : Char) : Option ℕ :=
  if c.isDigit then some (c.toNat - 48)
  else if 'a' ≤ c ∧ c ≤ 'f' then some (c.toNat - 87)
  else if 'A' ≤ c ∧ c ≤ 'F' then some (c.toNat - 55)
  else none

/-- Consume the longest prefix of digits (per `dval`) of a character list,
returning the accumulated value, the number of digits consumed, and the
rest of the list. -/
def digitSpan (dval : Char → Option ℕ) (base : ℕ) :
    List Char → ℕ → ℕ → ℕ × ℕ × List Char
  | [], acc, cnt => (acc, cnt, [])
  | c :: cs, acc, cnt =>
    match dval c with
    | some d => digitSpan dval base cs (acc * base + d) (cnt + 1)
    | none => (acc, cnt, c :: cs)

/-- ECMAScript `parseInt(s)` with the radix argument omitted: strip leading
whitespace, optional sign, optional `0x`/`0X` prefix selecting base 16,
then the longest digit prefix; NaN when no digit was consumed and negative
zero for inputs like "-0". -/
def parseIntJs (s : String) : JsInt :=
  let cs := s.data.dropWhile Char.isWhitespace
  let signNeg : Bool := match cs with | '-' :: _ => true | _ => false
  let cs1 := match cs with | '-' :: r => r | '+' :: r => r | _ => cs
  let p : ℕ × List Char :=
    match cs1 with
    | '0' :: 'x' :: r => (16, r)
    | '0' :: 'X' :: r => (16, r)
    | _ => (10, cs1)
  let dval := if p.1 = 16 then hexDigit else decDigit
  let t := digitSpan dval p.1 p.2 0 0
  if t.2.1 = 0 then JsInt.nan
  else if signNeg then (if t.1 = 0 then JsInt.negZero else JsInt.int (-(t.1 : ℤ)))
  else JsInt.int (t.1 : ℤ)

/-- Does the list start with the given pattern? -/
def listStartsWith : List Char → List Char → Bool
  | _, [] => true
  | [], _ :: _ => false
  | a :: as, b :: bs => a == b && listStartsWith as bs

/-- Exponent part of a decimal literal: optional sign then digits; an
exponent with no digits is not consumed and contributes 0. -/
def parseExpPart (r : List Char) : ℤ :=
  let signNeg : Bool := match r with | '-' :: _ => true | _ => false
  let r1 := match r with | '-' :: t => t | '+' :: t => t | _ => r
  let t := digitSpan decDigit 10 r1 0 0
  if t.2.1 = 0 then 0 else (if signNeg then -(t.1 : ℤ) else (t.1 : ℤ))

/-- ECMAScript `parseFloat(s)`: strip leading whitespace, optional sign,
then the longest prefix that is `Infinity` or a decimal literal
(`digits[.digits][exp]` or `.digits[exp]`); NaN when no valid prefix.
The finite value is returned as an exact rational ("-0" is returned as 0,
which is indistinguishable from +0 in the comparisons the pipeline does). -/
def parseFloatJs (s : String) : JsNum :=
  let cs := s.data.dropWhile Char.isWhitespace
  let signNeg : Bool := match cs with | '-' :: _ => true | _ => false
  let cs1 := match cs with | '-' :: r => r | '+' :: r => r | _ => cs
  if listStartsWith cs1 "Infinity".data then
    (if signNeg then JsNum.negInf else JsNum.inf)
  else
    let ti := digitSpan decDigit 10 cs1 0 0
    let tf : ℕ × ℕ × List Char :=
      match ti.2.2 with
      | '.' :: r => digitSpan decDigit 10 r 0 0
      | _ => (0, 0, ti.2.2)
    if ti.2.1 = 0 ∧ tf.2.1 = 0 then JsNum.nan
    else
      let mant : ℚ := (ti.1 : ℚ) + (tf.1 : ℚ) / ((10 : ℚ) ^ tf.2.1)
      let expVal : ℤ :=
        match tf.2.2 with
        | 'e' :: r => parseExpPart r
        | 'E' :: r => parseExpPart r
        | _ => 0
      let mag : ℚ :=
        if 0 ≤ expVal then mant * (10 : ℚ) ^ expVal.toNat
        else mant / (10 : ℚ) ^ (-expVal).toNat
      JsNum.num (if signNeg then -mag else mag)

/-- A product record (the shape produced by mockData.js and served by the
catalog routes). Prices are modelled as exact rationals. -/
structure Product where
  id : ℤ
  title : String
  price : ℚ
  description : String
  category : String
  images : List String
  createdAt : String
  updatedAt : String

deriving instance DecidableEq, Repr for Product

/-- Raw query parameters of GET /api/products: each is an optional string,
exactly as destructured from req.query at lines 367-376 of server.js. -/
structure Query where
  limit : Option String
  offset : Option String
  sort : Option String
  order : Option String
  category : Option String
  minPrice : Option String
  maxPrice : Option String
  search : Option String

deriving instance DecidableEq, Repr for Query

/-- Replace the limit parameter of a query. -/
def withLimit (q : Query) (v : Option String) : Query :=
  ⟨v, q.offset, q.sort, q.order, q.category, q.minPrice, q.maxPrice, q.search⟩

/-- Replace the offset parameter of a query. -/
def withOffset (q : Query) (v : Option String) : Query :=
  ⟨q.limit, v, q.sort, q.order, q.category, q.minPrice, q.maxPrice, q.search⟩

/-- Replace the minPrice parameter of a query. -/
def withMinPrice (q : Query) (v : Option String) : Query :=
  ⟨q.limit, q.offset, q.sort, q.order, q.category, v, q.maxPrice, q.search⟩

/-- Replace the maxPrice parameter of a query. -/
def withMaxPrice (q : Query) (v : Option String) : Query :=
  ⟨q.limit, q.offset, q.sort, q.order, q.category, q.minPrice, v, q.search⟩

/-- Line 381/382 of server.js: `minPrice ? parseFloat(minPrice) : undefined`.
The parameter is resolved to a number only when present and non-empty
(the empty string is falsy); otherwise it stays undefined (`none`). -/
def resolvedPrice (v : Option String) : Option JsNum :=
  match v with
  | none => none
  | some s => if s = "" then none else some (parseFloatJs s)

/-- JS comparison `p >= bound` for a finite p and a parsed bound:
false whenever the bound is NaN. -/
def priceGE (p : ℚ) (bound : JsNum) : Bool :=
  match bound with
  | JsNum.nan => false
  | JsNum.inf => false
  | JsNum.negInf => true
  | JsNum.num q => q ≤ p

/-- JS comparison `p <= bound` for a finite p and a parsed bound:
false whenever the bound is NaN. -/
def priceLE (p : ℚ) (bound : JsNum) : Bool :=
  match bound with
  | JsNum.nan => false
  | JsNum.inf => true
  | JsNum.negInf => false
  | JsNum.num q => p ≤ q

/-- Lines 388-393 of server.js: if the category parameter is truthy, split
it on commas and keep the products whose category is a member (exact,
case-sensitive string match). -/
def applyCategoryFilter (category : Option String) (l : List Product) : List Product :=
  match category with
  | none => l
  | some c =>
    if c = "" then l
    else l.filter (fun p => (c.splitOn ",").contains p.category)

/-- Lines 396-400 of server.js: if minPrice resolved to a number (possibly
NaN), keep the products with `price >= minPrice`. -/
def applyMinPriceFilter (mp : Option JsNum) (l : List Product) : List Product :=
  match mp with
  | none => l
  | some b => l.filter (fun p => priceGE p.price b)

/-- Lines 402-406 of server.js: if maxPrice resolved to a number (possibly
NaN), keep the products with `price <= maxPrice`. -/
def applyMaxPriceFilter (mp : Option JsNum) (l : List Product) : List Product :=
  match mp with
  | none => l
  | some b => l.filter (fun p => priceLE p.price b)

/-- Is the needle a contiguous substring of the haystack? (JS `includes`). -/
def listContainsSub (sub : List Char) : List Char → Bool
  | [] => sub.isEmpty
  | c :: cs => listStartsWith (c :: cs) sub || listContainsSub sub cs

/-- JS `hay.includes(needle)`. -/
def strIncludesJs (hay needle : String) : Bool :=
  listContainsSub needle.data hay.data

/-- Lines 409-416 of server.js: if the search parameter is truthy, keep the
products whose lowercased title or description contains the lowercased
search string. -/
def applySearchFilter (search : Option String) (l : List Product) : List Product :=
  match search with
  | none => l
  | some s =>
    if s = "" then l
    else
      let searchLower := s.toLower
      l.filter (fun p =>
        strIncludesJs p.title.toLower searchLower
          || strIncludesJs p.description.toLower searchLower)

/-- Lines 384-416 of server.js: the four filters applied in source order
(category, then minPrice, then maxPrice, then search) to the catalog. -/
def applyFilters (q : Query) (l : List Product) : List Product :=
  applySearchFilter q.search
    (applyMaxPriceFilter (resolvedPrice q.maxPrice)
      (applyMinPriceFilter (resolvedPrice q.minPrice)
        (applyCategoryFilter q.category l)))

/-- Lines 419-430 of server.js: the sort comparator.  Only the sign of the
JS comparison value is observable to the sort, so the numeric differences
are modelled by their sign; `localeCompare` on titles is modelled by
code-point comparison.  `order = "desc"` negates the comparator; any
other order value leaves it ascending. -/
def cmpProducts (sort order : String) (a b : Product) : ℤ :=
  let comparison : ℤ :=
    if sort = "price" then
      (if a.price < b.price then -1 else if b.price < a.price then 1 else 0)
    else if sort = "title" then
      (match compare a.title b.title with
       | Ordering.lt => -1
       | Ordering.eq => 0
       | Ordering.gt => 1)
    else
      (if a.id < b.id then -1 else if b.id < a.id then 1 else 0)
  if order = "desc" then -comparison else comparison

/-- Insert an element into a list sorted by the comparator, before the
first element it does not strictly follow (keeps the insertion stable). -/
def insertCmp (cmp : Product → Product → ℤ) (x : Product) : List Product → List Product
  | [] => [x]
  | y :: ys => if cmp x y ≤ 0 then x :: y :: ys else y :: insertCmp cmp x ys

/-- Stable comparator sort (JS `Array.prototype.sort` is stable). -/
def sortByCmp (cmp : Product → Product → ℤ) : List Product → List Product
  | [] => []
  | x :: xs => insertCmp cmp x (sortByCmp cmp xs)

/-- `ToIntegerOrInfinity` restricted to parseInt results: NaN and negative
zero both become 0. -/
def toIntegerOrZero : JsInt → ℤ
  | JsInt.nan => 0
  | JsInt.negZero => 0
  | JsInt.int n => n

/-- Relative index resolution of `Array.prototype.slice`: a negative index
counts from the end (clamped below by 0), a non-negative one is clamped
above by the length. -/
def clampIndex (len : ℕ) (i : ℤ) : ℕ :=
  if i < 0 then ((len : ℤ) + i).toNat else min i.toNat len

/-- JS `l.slice(start, stop)` for parseInt-produced bounds. -/
def jsSlice (l : List Product) (start stop : JsInt) : List Product :=
  let s := clampIndex l.length (toIntegerOrZero start)
  let e := clampIndex l.length (toIntegerOrZero stop)
  (l.take e).drop s

/-- JS `+` on parseInt results (NaN propagates; -0 + -0 = -0). -/
def jsAdd : JsInt → JsInt → JsInt
  | JsInt.int a, JsInt.int b => JsInt.int (a + b)
  | JsInt.int a, JsInt.negZero => JsInt.int a
  | JsInt.negZero, JsInt.int b => JsInt.int b
  | JsInt.negZero, JsInt.negZero => JsInt.negZero
  | _, _ => JsInt.nan

/-- Line 442 of server.js: `Math.ceil(total / limit)` with JS division:
NaN limit gives NaN; limit 0 gives NaN for an empty total and otherwise
Infinity (negative zero limit gives -Infinity); any other limit gives the
exact ceiling of the rational quotient. -/
def jsMathCeilDiv (total : ℕ) (limit : JsInt) : JsNum :=
  match limit with
  | JsInt.nan => JsNum.nan
  | JsInt.negZero => if total = 0 then JsNum.nan else JsNum.negInf
  | JsInt.int n =>
    if n = 0 then (if total = 0 then JsNum.nan else JsNum.inf)
    else JsNum.num ((⌈(total : ℚ) / (n : ℚ)⌉ : ℤ) : ℚ)

/-- The pagination envelope of the GET /api/products response. -/
structure Pagination where
  total : ℕ
  limit : JsInt
  offset : JsInt
  totalPages : JsNum

deriving instance DecidableEq, Repr for Pagination

/-- The GET /api/products response body. -/
structure ProductsResponse where
  products : List Product
  pagination : Pagination

deriving instance DecidableEq, Repr for ProductsResponse

/-- The filtered catalog after the in-place sort of line 419 (the list the
pagination slice of line 434 operates on). -/
def sortedFiltered (ps : List Product) (q : Query) : List Product :=
  sortByCmp (cmpProducts (q.sort.getD "id") (q.order.getD "asc")) (applyFilters q ps)

/-- Lines 366-445 of server.js: the whole GET /api/products handler.
Absent limit/offset/sort/order parameters take the destructuring defaults
10 / 0 / "id" / "asc" (parseInt applied to the numeric default 10 equals
parseInt applied to the string "10"). -/
def handleGetProducts (ps : List Product) (q : Query) : ProductsResponse :=
  let limit := parseIntJs (q.limit.getD "10")
  let offset := parseIntJs (q.offset.getD "0")
  let filteredProducts := sortedFiltered ps q
  let total := filteredProducts.length
  let paginatedProducts := jsSlice filteredProducts offset (jsAdd offset limit)
  ⟨paginatedProducts, ⟨total, limit, offset, jsMathCeilDiv total limit⟩⟩

/-- The GET /api/products route as a state transformer on the module-level
`products` binding.  Line 385 copies the catalog (`[...products]`) before
any filter, and the in-place sort of line 419 acts on that copy (or on a
fresh array produced by `filter`), so the handler leaves the catalog
exactly as it found it. -/
def getProductsRoute (ps : List Product) (q : Query) : ProductsResponse × List Product :=
  (handleGetProducts ps q, ps)

/-- A stored API key record (the value of `apiKeys[apiKey]`, lines 238-241
of server.js).  Timestamps are milliseconds since the epoch. -/
structure ApiKeyRecord where
  expiresAt : ℤ
  createdAt : ℤ

deriving instance DecidableEq, Repr for ApiKeyRecord

/-- The `apiKeys` object: a finite map from token to record, modelled as a
lookup function. -/
abbrev KeyStore : Type := String → Option ApiKeyRecord

/-- The empty key store. -/
def emptyStore : KeyStore := fun _ => none

/-- `apiKeys[k] = r`. -/
def storeInsert (ks : KeyStore) (k : String) (r : ApiKeyRecord) : KeyStore :=
  fun x => if x = k then some r else ks x

/-- `delete apiKeys[k]`. -/
def storeDelete (ks : KeyStore) (k : String) : KeyStore :=
  fun x => if x = k then none else ks x

/-- Outcome of the API-key middleware (lines 144-170 of server.js). -/
inductive GuardResult where
  | ok : GuardResult          -- next()
  | missingKey : GuardResult  -- 401 API key is required
  | invalidKey : GuardResult  -- 401 Invalid API key
  | expiredKey : GuardResult  -- 401 API key has expired

deriving instance DecidableEq, Repr for GuardResult

/-- Lines 144-170 of server.js: the validateApiKey middleware.  The key
generation path is exempt; a missing or empty header (both falsy) is
rejected; an unknown token is rejected; a token with
`Date.now() > expiresAt` is deleted from the store and rejected as
expired; otherwise the request proceeds. -/
def validateApiKey (now : ℤ) (path : String) (header : Option String)
    (ks : KeyStore) : GuardResult × KeyStore :=
  if path = "/api/auth/generate-key" then (GuardResult.ok, ks)
  else
    match header with
    | none => (GuardResult.missingKey, ks)
    | some k =>
      if k = "" then (GuardResult.missingKey, ks)
      else
        match ks k with
        | none => (GuardResult.invalidKey, ks)
        | some r =>
          if r.expiresAt < now then (GuardResult.expiredKey, storeDelete ks k)
          else (GuardResult.ok, ks)

/-- Outcome of POST /api/auth/generate-key. -/
inductive GenKeyResult where
  | forbidden : GenKeyResult          -- 403 Invalid master key
  | badRequestFormat : GenKeyResult   -- 400 Invalid expiresIn format
  | okKey : String → ℤ → GenKeyResult -- 200 with apiKey and expiresAt

deriving instance DecidableEq, Repr for GenKeyResult

/-- Lines 219-223 of server.js: the durationMap object (milliseconds per
hour, day, week). -/
def durationMapLookup (unit : Char) : Option ℕ :=
  if unit = 'h' then some (60 * 60 * 1000)
  else if unit = 'd' then some (24 * 60 * 60 * 1000)
  else if unit = 'w' then some (7 * 24 * 60 * 60 * 1000)
  else none

/-- Line 225 of server.js: match expiresIn against the anchored pattern
of one or more decimal digits followed by one of h, d, w; on success
return the captured amount and unit. -/
def matchExpiresIn (s : String) : Option (ℕ × Char) :=
  let t := digitSpan decDigit 10 s.data 0 0
  match t.2.2 with
  | [u] =>
    if t.2.1 = 0 then none
    else if u = 'h' ∨ u = 'd' ∨ u = 'w' then some (t.1, u) else none
  | _ => none

/-- Lines 209-250 of server.js: the POST /api/auth/generate-key handler.
`t1` is the `Date.now()` reading of line 235 (used for expiresAt) and
`t2` the separate reading of line 240 (stored as createdAt); `newKey` is
the uuid of line 236.  The body's expiresIn defaults to "1d"; a master
key different from the environment's is rejected before any parsing. -/
def generateKeyHandler (t1 t2 : ℤ) (newKey : String)
    (masterKey envMasterKey : Option String) (expiresIn : Option String)
    (ks : KeyStore) : GenKeyResult × KeyStore :=
  let expiresInVal := expiresIn.getD "1d"
  if masterKey ≠ envMasterKey then (GenKeyResult.forbidden, ks)
  else
    match matchExpiresIn expiresInVal with
    | none => (GenKeyResult.badRequestFormat, ks)
    | some au =>
      let durationMs : ℤ := (au.1 : ℤ) * (((durationMapLookup au.2).getD 0 : ℕ) : ℤ)
      let expiresAt := t1 + durationMs
      (GenKeyResult.okKey newKey expiresAt, storeInsert ks newKey ⟨expiresAt, t2⟩)

/-- The random draws of mockData.js for one product (title, price,
description, category, images, timestamps) — everything generateProduct
produces except the id. -/
structure ProductSeed where
  title : String
  price : ℚ
  description : String
  category : String
  images : List String
  createdAt : String
  updatedAt : String

/-- Lines 19-37 of mockData.js: build one product from its random draws
and its id. -/
def generateProduct (seed : ProductSeed) (id : ℤ) : Product :=
  ⟨id, seed.title, seed.price, seed.description, seed.category,
    seed.images, seed.createdAt, seed.updatedAt⟩

/-- Lines 40-44 of mockData.js: `Array.from` of length count, product at
index `i` getting id `i + 1`. -/
def generateMockProducts (seeds : ℕ → ProductSeed) (count : ℕ) : List Product :=
  (List.range count).map (fun index => generateProduct (seeds index) ((index : ℤ) + 1))

/-- Outcome of POST /api/admin/regenerate-products. -/
inductive RegenResult where
  | forbidden : RegenResult  -- 403 Invalid master key
  | okCount : ℕ → RegenResult -- 200 with the new count

deriving instance DecidableEq, Repr for RegenResult

/-- Lines 537-551 of server.js: the POST /api/admin/regenerate-products
handler as a state transformer on the `products` binding: on a master-key
match the catalog is replaced wholesale by a fresh generation. -/
def regenerateProductsHandler (seeds : ℕ → ProductSeed) (count : ℕ)
    (masterKey envMasterKey : Option String)
    (ps : List Product) : RegenResult × List Product :=
  if masterKey ≠ envMasterKey then (RegenResult.forbidden, ps)
  else
    let newProducts := generateMockProducts seeds count
    (RegenResult.okCount newProducts.length, newProducts)

/-- Lines 470-479 of server.js: GET /api/products/:id — find the first
product whose id strictly equals the parseInt of the path parameter
(NaN equals nothing; negative zero equals id 0); `none` is the 404 case. -/
def getProductById (ps : List Product) (id : JsInt) : Option Product :=
  ps.find? (fun p =>
    match id with
    | JsInt.int n => p.id == n
    | JsInt.negZero => p.id == 0
    | JsInt.nan => false)

/-- A concrete product used to instantiate theorems. -/
def sampleProduct : Product :=
  ⟨1, "Widget", 50, "A widget", "Electronics", [], "2024-01-01", "2024-01-02"⟩

/-- A second concrete product. -/
def sampleProduct2 : Product :=
  ⟨2, "Gadget", 60, "A gadget", "Clothing", [], "2024-01-01", "2024-01-02"⟩

/-- A third concrete product. -/
def sampleProduct3 : Product :=
  ⟨3, "Trinket", 70, "A trinket", "Books", [], "2024-01-01", "2024-01-02"⟩

/-- A GET /api/products request with no query parameters. -/
def emptyQuery : Query := ⟨none, none, none, none, none, none, none, none⟩

/-- A concrete three-product catalog. -/
def smallCatalog : List Product := [sampleProduct, sampleProduct2, sampleProduct3]

/-- A store holding one token that expires at time 100. -/
def oneKeyStore : KeyStore := storeInsert emptyStore "token1" ⟨100, 0⟩

/-- A constant seed stream for instantiating the mock-data generator. -/
def constSeeds : ℕ → ProductSeed := fun _ => ⟨"T", 5, "D", "C", [], "a", "b"⟩

/-- Page-k query of a concrete pagination walk with limit 2 over
`smallCatalog`: offsets 0 and 2. -/
def walkQuery : ℕ → Query := fun k =>
  ⟨some "2", some (if k = 0 then "0" else "2"), none, none, none, none, none, none⟩

theorem handleGetProducts_products_eq (ps : List Product) (q : Query) :
    (handleGetProducts ps q).products
      = jsSlice (sortedFiltered ps q) (parseIntJs (q.offset.getD "0"))
          (jsAdd (parseIntJs (q.offset.getD "0")) (parseIntJs (q.limit.getD "10"))) := rfl

theorem handleGetProducts_total_eq (ps : List Product) (q : Query) :
    (handleGetProducts ps q).pagination.total = (sortedFiltered ps q).length := rfl

theorem handleGetProducts_totalPages_eq (ps : List Product) (q : Query) :
    (handleGetProducts ps q).pagination.totalPages
      = jsMathCeilDiv (sortedFiltered ps q).length (parseIntJs (q.limit.getD "10")) := rfl

theorem handleGetProducts_limit_eq (ps : List Product) (q : Query) :
    (handleGetProducts ps q).pagination.limit = parseIntJs (q.limit.getD "10") := rfl

theorem handleGetProducts_offset_eq (ps : List Product) (q : Query) :
    (handleGetProducts ps q).pagination.offset = parseIntJs (q.offset.getD "0") := rfl

theorem applyMinPriceFilter_nan_empty (l : List Product) :
    applyMinPriceFilter (some JsNum.nan) l = [] := by
  simp [applyMinPriceFilter, priceGE]

theorem applyMaxPriceFilter_nan_empty (l : List Product) :
    applyMaxPriceFilter (some JsNum.nan) l = [] := by
  simp [applyMaxPriceFilter, priceLE]

theorem applyMaxPriceFilter_nil (mp : Option JsNum) : applyMaxPriceFilter mp [] = [] := by
  cases mp <;> simp [applyMaxPriceFilter]

theorem applySearchFilter_nil (os : Option String) : applySearchFilter os [] = [] := by
  cases os <;> simp [applySearchFilter]

theorem jsSlice_nil (a b : JsInt) : jsSlice [] a b = [] := by
  simp [jsSlice]

theorem jsAdd_nan_right (x : JsInt) : jsAdd x JsInt.nan = JsInt.nan := by
  cases x <;> rfl

theorem jsAdd_nan_left (x : JsInt) : jsAdd JsInt.nan x = JsInt.nan := by
  cases x <;> rfl

theorem jsSlice_stop_nan (l : List Product) (a : JsInt) : jsSlice l a JsInt.nan = [] := by
  simp [jsSlice, toIntegerOrZero, clampIndex]

theorem mem_applyCategoryFilter (c : Option String) (l : List Product) (p : Product) :
    p ∈ applyCategoryFilter c l
      ↔ p ∈ l ∧ ∀ s, c = some s → s ≠ "" → (s.splitOn ",").contains p.category := by
  cases c with
  | none => simp [applyCategoryFilter]
  | some s =>
    by_cases hs : s = ""
    · subst hs; simp [applyCategoryFilter]
    · simp [applyCategoryFilter, hs, List.mem_filter]

theorem mem_applyMinPriceFilter (mp : Option JsNum) (l : List Product) (p : Product) :
    p ∈ applyMinPriceFilter mp l
      ↔ p ∈ l ∧ ∀ b, mp = some b → priceGE p.price b := by
  cases mp <;> simp [applyMinPriceFilter, List.mem_filter]

theorem mem_applyMaxPriceFilter (mp : Option JsNum) (l : List Product) (p : Product) :
    p ∈ applyMaxPriceFilter mp l
      ↔ p ∈ l ∧ ∀ b, mp = some b → priceLE p.price b := by
  cases mp <;> simp [applyMaxPriceFilter, List.mem_filter]

theorem mem_applySearchFilter (os : Option String) (l : List Product) (p : Product) :
    p ∈ applySearchFilter os l
      ↔ p ∈ l ∧ ∀ s, os = some s → s ≠ "" →
          (strIncludesJs p.title.toLower s.toLower
            || strIncludesJs p.description.toLower s.toLower) := by
  cases os with
  | none => simp [applySearchFilter]
  | some s =>
    by_cases hs : s = ""
    · subst hs; simp [applySearchFilter]
    · simp [applySearchFilter, hs, List.mem_filter]

theorem take_min_length (xs : List Product) (m : ℕ) :
    xs.take (min m xs.length) = xs.take m := by
  rcases le_total m xs.length with h | h
  · rw [min_eq_left h]
  · rw [min_eq_right h, List.take_of_length_le h, List.take_of_length_le (le_refl _)]

theorem jsSlice_nonneg (l : List Product) (a m : ℕ) :
    jsSlice l (JsInt.int (a : ℤ)) (JsInt.int ((a : ℤ) + (m : ℤ))) = (l.drop a).take m := by
  have key : jsSlice l (JsInt.int (a : ℤ)) (JsInt.int ((a : ℤ) + (m : ℤ)))
      = (l.take (min (a + m) l.length)).drop (min a l.length) := by
    simp only [jsSlice, toIntegerOrZero, clampIndex]
    rw [if_neg (by omega), if_neg (by omega)]
    have h1 : ((a : ℤ) + (m : ℤ)).toNat = a + m := by omega
    have h2 : ((a : ℤ)).toNat = a := by omega
    rw [h1, h2]
  rw [key]
  rcases le_total a l.length with h | h
  · rw [min_eq_left h, List.drop_take]
    have heq : min (a + m) l.length - a = min m (l.length - a) := by omega
    rw [heq, ← List.length_drop a l, take_min_length]
  · rw [min_eq_right h]
    have hm2 : min (a + m) l.length = l.length := by omega
    rw [hm2, List.drop_eq_nil_of_le (by rw [List.length_take]; omega),
      List.drop_eq_nil_of_le h, List.take_nil]

theorem joinChunks (m : ℕ) (l : List Product) (N : ℕ) :
    ((List.range N).map (fun k => (l.drop (k * m)).take m)).flatten = l.take (N * m) := by
  induction N with
  | zero => simp
  | succ n ih =>
    rw [List.range_succ, List.map_append, List.flatten_append, ih]
    simp only [List.map_cons, List.map_nil, List.flatten_cons, List.flatten_nil,
      List.append_nil]
    rw [Nat.succ_mul, List.take_add]

/-- C1 counterexample: with a one-product catalog, the request with
minPrice "abc" (a non-empty string that does not parse as a number)
returns a different result from the same request with minPrice omitted,
so the malformed parameter is not treated as absent. -/
theorem C1_counterexample :
    handleGetProducts [sampleProduct] (withMinPrice emptyQuery (some "abc"))
      ≠ handleGetProducts [sampleProduct] emptyQuery := by decide

/-- C1 (amended): a non-empty minPrice or maxPrice string that does not
parse as a number resolves to NaN and the corresponding price filter IS
applied: the NaN comparison rejects every product, so the response is an
empty page with total 0.  No error is raised, but the result differs from
the request with the parameter omitted whenever the latter returns any
product. -/
theorem C1_malformed_price_rejects_all (ps : List Product) (q : Query) (s : String)
    (hs : s ≠ "") (hnan : parseFloatJs s = JsNum.nan)
    (hq : q.minPrice = some s ∨ q.maxPrice = some s) :
    (handleGetProducts ps q).products = []
      ∧ (handleGetProducts ps q).pagination.total = 0 := by
  have hfil : applyFilters q ps = [] := by
    rcases hq with h | h
    · have hres : resolvedPrice q.minPrice = some JsNum.nan := by
        rw [h]; simp [resolvedPrice, hs, hnan]
      unfold applyFilters
      rw [hres, applyMinPriceFilter_nan_empty, applyMaxPriceFilter_nil, applySearchFilter_nil]
    · have hres : resolvedPrice q.maxPrice = some JsNum.nan := by
        rw [h]; simp [resolvedPrice, hs, hnan]
      unfold applyFilters
      rw [hres, applyMaxPriceFilter_nan_empty, applySearchFilter_nil]
  have hsf : sortedFiltered ps q = [] := by
    unfold sortedFiltered; rw [hfil]; rfl
  refine ⟨?_, ?_⟩
  · rw [handleGetProducts_products_eq, hsf, jsSlice_nil]
  · rw [handleGetProducts_total_eq, hsf]; rfl

/-- C1 witness: the amended theorem instantiated at a concrete catalog and
the malformed minPrice "abc". -/
theorem C1_witness :
    "abc" ≠ "" ∧ parseFloatJs "abc" = JsNum.nan
      ∧ ((handleGetProducts [sampleProduct] (withMinPrice emptyQuery (some "abc"))).products = []
          ∧ (handleGetProducts [sampleProduct]
              (withMinPrice emptyQuery (some "abc"))).pagination.total = 0) :=
  ⟨by decide, by decide,
    C1_malformed_price_rejects_all [sampleProduct] (withMinPrice emptyQuery (some "abc"))
      "abc" (by decide) (by decide) (Or.inl rfl)⟩

/-- C2 counterexample: a token whose expiresAt is exactly the current time
(now = expiresAt = 100) validates as Ok and stays in the store, whereas
the claim requires Expired plus eviction whenever now >= expiresAt. -/
theorem C2_counterexample :
    (validateApiKey 100 "/api/products" (some "token1") oneKeyStore).1 = GuardResult.ok
      ∧ ((validateApiKey 100 "/api/products" (some "token1") oneKeyStore).2 "token1").isSome
          = true := by
  exact ⟨by decide, by decide⟩

/-- C2 (amended): for a token present in the store (on a guarded path, with
a non-empty header), validate returns Ok exactly when now <= expiresAt, in
which case the store is unchanged; when now > expiresAt it returns Expired
and deletes exactly that record.  So a key is usable while now <= expiresAt
and is evicted by the first validation with now > expiresAt (strict, not
the claimed now >= expiresAt). -/
theorem C2_validate_expiry_boundary (now : ℤ) (path k : String) (ks : KeyStore)
    (r : ApiKeyRecord) (hpath : path ≠ "/api/auth/generate-key") (hk : k ≠ "")
    (hlook : ks k = some r) :
    ((validateApiKey now path (some k) ks).1 = GuardResult.ok ↔ now ≤ r.expiresAt)
    ∧ (now ≤ r.expiresAt → (validateApiKey now path (some k) ks).2 = ks)
    ∧ (r.expiresAt < now →
        (validateApiKey now path (some k) ks).1 = GuardResult.expiredKey
        ∧ (validateApiKey now path (some k) ks).2 k = none
        ∧ ∀ x, x ≠ k → (validateApiKey now path (some k) ks).2 x = ks x) := by
  have hval : validateApiKey now path (some k) ks
      = if r.expiresAt < now then (GuardResult.expiredKey, storeDelete ks k)
        else (GuardResult.ok, ks) := by
    simp [validateApiKey, hpath, hk, hlook]
  by_cases h : r.expiresAt < now
  · rw [hval, if_pos h]
    refine ⟨?_, ?_, ?_⟩
    · simp only []
      constructor
      · intro hcon; cases hcon
      · intro hle; omega
    · intro hle; omega
    · intro _
      refine ⟨rfl, ?_, ?_⟩
      · simp [storeDelete]
      · intro x hx; simp [storeDelete, hx]
  · rw [hval, if_neg h]
    exact ⟨by simp; omega, fun _ => rfl, fun h2 => absurd h2 h⟩

/-- C2 witness: at now = 50 < 100 = expiresAt the concrete store validates
Ok, via the amended theorem. -/
theorem C2_witness :
    (validateApiKey 50 "/api/products" (some "token1") oneKeyStore).1 = GuardResult.ok :=
  (C2_validate_expiry_boundary 50 "/api/products" "token1" oneKeyStore ⟨100, 0⟩
    (by decide) (by decide) (by decide)).1.mpr (by decide)

/-- C3 counterexample: with one product and limit "0" the envelope's
totalPages is Infinity, not the 0 the claim requires for limit <= 0. -/
theorem C3_counterexample :
    (handleGetProducts [sampleProduct] (withLimit emptyQuery (some "0"))).pagination.totalPages
        = JsNum.inf
      ∧ JsNum.inf ≠ JsNum.num 0 := by decide

/-- C3 (amended): total is the post-filter pre-pagination count, and
totalPages is Math.ceil(total/limit) under JS arithmetic: the exact
rational ceiling for any non-zero parsed limit, but for limit 0 it is
Infinity when total > 0 and NaN when total = 0 — never 0. -/
theorem C3_totalPages_ceil (ps : List Product) (q : Query) (n : ℤ)
    (h : parseIntJs (q.limit.getD "10") = JsInt.int n) :
    (handleGetProducts ps q).pagination.total = (sortedFiltered ps q).length
    ∧ (n ≠ 0 → (handleGetProducts ps q).pagination.totalPages
        = JsNum.num ((⌈((sortedFiltered ps q).length : ℚ) / (n : ℚ)⌉ : ℤ) : ℚ))
    ∧ (n = 0 → (handleGetProducts ps q).pagination.totalPages
        = (if (sortedFiltered ps q).length = 0 then JsNum.nan else JsNum.inf)) := by
  refine ⟨rfl, ?_, ?_⟩
  · intro hn
    rw [handleGetProducts_totalPages_eq, h]
    simp [jsMathCeilDiv, hn]
  · intro hn; subst hn
    rw [handleGetProducts_totalPages_eq, h]
    simp [jsMathCeilDiv]

/-- C3 witness: the amended theorem instantiated at the default limit 10
with a one-product catalog (totalPages = ceil(1/10) = 1). -/
theorem C3_witness :
    parseIntJs ((emptyQuery.limit).getD "10") = JsInt.int 10
      ∧ (handleGetProducts [sampleProduct] emptyQuery).pagination.totalPages = JsNum.num 1 := by
  refine ⟨by decide, ?_⟩
  have h := (C3_totalPages_ceil [sampleProduct] emptyQuery 10 (by decide)).2.1 (by decide)
  rw [h]
  have hL : sortedFiltered [sampleProduct] emptyQuery = [sampleProduct] := rfl
  rw [hL]
  have hc : (⌈(([sampleProduct].length : ℕ) : ℚ) / ((10 : ℤ) : ℚ)⌉ : ℤ) = 1 := by
    rw [Int.ceil_eq_iff]
    constructor <;> norm_num
  rw [hc]
  rfl

/-- C4 counterexample: with a one-product catalog, limit "abc" (present but
not parsing as an integer) yields a response different from the request
with limit omitted (which uses the default 10), so the request does not
behave as if the default had been supplied. -/
theorem C4_counterexample :
    handleGetProducts [sampleProduct] (withLimit emptyQuery (some "abc"))
      ≠ handleGetProducts [sampleProduct] emptyQuery := by decide

/-- C4 (amended): a missing limit or offset takes the defaults 10 and 0,
but a present value that does not parse as an integer is NOT defaulted:
parseInt yields NaN, the slice bound offset+limit is NaN so the page is
empty, and the envelope echoes NaN for the affected field. -/
theorem C4_defaults_and_nan (ps : List Product) (q : Query) (s : String)
    (hnan : parseIntJs s = JsInt.nan) :
    (handleGetProducts ps (withLimit q none) = handleGetProducts ps (withLimit q (some "10"))
      ∧ handleGetProducts ps (withOffset q none) = handleGetProducts ps (withOffset q (some "0")))
    ∧ ((handleGetProducts ps (withLimit q (some s))).products = []
        ∧ (handleGetProducts ps (withLimit q (some s))).pagination.limit = JsInt.nan)
    ∧ ((handleGetProducts ps (withOffset q (some s))).products = []
        ∧ (handleGetProducts ps (withOffset q (some s))).pagination.offset = JsInt.nan) := by
  refine ⟨⟨rfl, rfl⟩, ⟨?_, ?_⟩, ⟨?_, ?_⟩⟩
  · rw [handleGetProducts_products_eq]
    have hl : (withLimit q (some s)).limit.getD "10" = s := rfl
    rw [hl, hnan, jsAdd_nan_right, jsSlice_stop_nan]
  · rw [handleGetProducts_limit_eq]
    have hl : (withLimit q (some s)).limit.getD "10" = s := rfl
    rw [hl, hnan]
  · rw [handleGetProducts_products_eq]
    have ho : (withOffset q (some s)).offset.getD "0" = s := rfl
    rw [ho, hnan, jsAdd_nan_left, jsSlice_stop_nan]
  · rw [handleGetProducts_offset_eq]
    have ho : (withOffset q (some s)).offset.getD "0" = s := rfl
    rw [ho, hnan]

/-- C4 witness: the amended theorem instantiated at the one-product catalog
with the non-parsing string "abc". -/
theorem C4_witness :
    parseIntJs "abc" = JsInt.nan
      ∧ (handleGetProducts [sampleProduct] (withLimit emptyQuery (some "abc"))).products = []
      ∧ (handleGetProducts [sampleProduct] (withOffset emptyQuery (some "abc"))).products = [] := by
  have h := C4_defaults_and_nan [sampleProduct] emptyQuery "abc" (by decide)
  exact ⟨by decide, h.2.1.1, h.2.2.1⟩

/-- C5 counterexample: with a three-product catalog, offset "-2" (an
integer outside the bounds of the sequence) and limit "1" return a
non-empty page — the JS slice interprets a negative offset relative to the
end of the sequence — contradicting the claim's empty-page guarantee. -/
theorem C5_counterexample :
    (handleGetProducts smallCatalog
        (withLimit (withOffset emptyQuery (some "-2")) (some "1"))).products
      = [sampleProduct2]
    ∧ [sampleProduct2] ≠ ([] : List Product) := by decide

/-- C5 (amended): an offset parsing to an integer at or beyond the length
of the filtered-and-sorted sequence yields an empty products page (the
slice clamps, no error is raised); a negative offset, however, is
interpreted relative to the end of the sequence and can yield a non-empty
page. -/
theorem C5_offset_beyond_length_empty (ps : List Product) (q : Query) (n : ℤ)
    (hoff : parseIntJs (q.offset.getD "0") = JsInt.int n)
    (hn : ((sortedFiltered ps q).length : ℤ) ≤ n) :
    (handleGetProducts ps q).products = [] := by
  rw [handleGetProducts_products_eq, hoff]
  simp only [jsSlice]
  apply List.drop_eq_nil_of_le
  rw [List.length_take]
  have hs : clampIndex (sortedFiltered ps q).length (toIntegerOrZero (JsInt.int n))
      = (sortedFiltered ps q).length := by
    simp only [toIntegerOrZero, clampIndex]
    rw [if_neg (by omega)]
    omega
  rw [hs]
  omega

/-- C5 witness: offset 5 on the one-product catalog yields an empty page,
via the amended theorem. -/
theorem C5_witness :
    (handleGetProducts [sampleProduct] (withOffset emptyQuery (some "5"))).products = [] :=
  C5_offset_beyond_length_empty [sampleProduct] (withOffset emptyQuery (some "5")) 5
    (by decide) (by decide)

/-- C6: filtering is conjunctive — a product survives the four filters
applied together (in the handler's order) iff it belongs to each filter's
individual result set on the same catalog. -/
theorem C6_filters_conjunctive (ps : List Product) (q : Query) (p : Product) :
    p ∈ applyFilters q ps
      ↔ (p ∈ applyCategoryFilter q.category ps
          ∧ p ∈ applyMinPriceFilter (resolvedPrice q.minPrice) ps
          ∧ p ∈ applyMaxPriceFilter (resolvedPrice q.maxPrice) ps
          ∧ p ∈ applySearchFilter q.search ps) := by
  simp only [applyFilters, mem_applyCategoryFilter, mem_applyMinPriceFilter,
    mem_applyMaxPriceFilter, mem_applySearchFilter]
  tauto

/-- C7: pagination is a pure slice — for a page size m >= 1, stepping the
offset through 0, m, 2m, ... and concatenating the returned pages
reconstructs the full filtered-and-sorted sequence, each element exactly
once.  N pages suffice as soon as N*m covers the sequence; Q k is the
page-k request, which agrees with q on the filter and sort parameters and
requests limit m and offset k*m. -/
theorem C7_pages_reconstruct (ps : List Product) (q : Query) (m N : ℕ) (_hm : 1 ≤ m)
    (Q : ℕ → Query)
    (hQ : ∀ k, k < N →
      applyFilters (Q k) ps = applyFilters q ps
      ∧ (Q k).sort = q.sort ∧ (Q k).order = q.order
      ∧ parseIntJs ((Q k).limit.getD "10") = JsInt.int (m : ℤ)
      ∧ parseIntJs ((Q k).offset.getD "0") = JsInt.int ((k * m : ℕ) : ℤ))
    (hN : (sortedFiltered ps q).length ≤ N * m) :
    ((List.range N).map (fun k => (handleGetProducts ps (Q k)).products)).flatten
      = sortedFiltered ps q := by
  have hpages : (List.range N).map (fun k => (handleGetProducts ps (Q k)).products)
      = (List.range N).map (fun k => ((sortedFiltered ps q).drop (k * m)).take m) := by
    apply List.map_congr_left
    intro k hk
    rw [List.mem_range] at hk
    obtain ⟨hf, hsort, horder, hlim, hoff⟩ := hQ k hk
    have hsf : sortedFiltered ps (Q k) = sortedFiltered ps q := by
      unfold sortedFiltered
      rw [hf, hsort, horder]
    have hadd : jsAdd (JsInt.int ((k * m : ℕ) : ℤ)) (JsInt.int (m : ℤ))
        = JsInt.int (((k * m : ℕ) : ℤ) + (m : ℤ)) := rfl
    rw [handleGetProducts_products_eq, hlim, hoff, hsf, hadd, jsSlice_nonneg]
  rw [hpages, joinChunks, List.take_of_length_le hN]

/-- C7 witness: limit 2 and offsets 0, 2 over the three-product catalog
reconstruct the full sequence, via the theorem. -/
theorem C7_witness :
    ((List.range 2).map (fun k => (handleGetProducts smallCatalog (walkQuery k)).products)).flatten
      = sortedFiltered smallCatalog emptyQuery := by
  apply C7_pages_reconstruct smallCatalog emptyQuery 2 2 (by decide) walkQuery
  · intro k hk
    match k with
    | 0 => exact ⟨rfl, rfl, rfl, by decide, by decide⟩
    | 1 => exact ⟨rfl, rfl, rfl, by decide, by decide⟩
    | n + 2 => omega
  · decide

/-- C8 counterexample: issuing a key with expiresIn "1h" when the two
Date.now() readings are 0 (line 235, used for expiresAt) and 1 (line 240,
stored as createdAt) stores a record with expiresAt - createdAt = 3599999,
not the claimed exact 1 * 3600000. -/
theorem C8_counterexample :
    ((generateKeyHandler 0 1 "key1" (some "mk") (some "mk") (some "1h") emptyStore).2 "key1")
      = some ⟨3600000, 1⟩
    ∧ ((3600000 : ℤ) - 1 ≠ 1 * 3600000) := by decide

/-- C8 (amended): for an expiresIn matching the duration grammar with
amount and unit, the stored record satisfies
expiresAt - createdAt = amount * multiplier - (t2 - t1), where t1 and t2
are the two separate Date.now() readings used for expiresAt and createdAt;
the claimed exact equality holds exactly when the readings coincide. -/
theorem C8_duration_exact_up_to_clock (t1 t2 : ℤ) (newKey : String)
    (mk env : Option String) (s : String) (amount : ℕ) (unit : Char) (mult : ℕ)
    (hmk : mk = env) (hmatch : matchExpiresIn s = some (amount, unit))
    (hmult : durationMapLookup unit = some mult) (ks : KeyStore) :
    ((generateKeyHandler t1 t2 newKey mk env (some s) ks).2 newKey)
      = some ⟨t1 + (amount : ℤ) * (mult : ℤ), t2⟩
    ∧ (t1 + (amount : ℤ) * (mult : ℤ)) - t2 = (amount : ℤ) * (mult : ℤ) - (t2 - t1) := by
  constructor
  · simp [generateKeyHandler, hmk, hmatch, hmult, storeInsert]
  · ring

/-- C8 witness: with coinciding clock readings t1 = t2 = 5 and expiresIn
"2d", the stored difference is exactly 2 * 86400000. -/
theorem C8_witness :
    ((generateKeyHandler 5 5 "key2" (some "mk") (some "mk") (some "2d") emptyStore).2 "key2")
      = some ⟨5 + (2 : ℤ) * 86400000, 5⟩
    ∧ (5 + (2 : ℤ) * 86400000) - 5 = (2 : ℤ) * 86400000 - (5 - 5) :=
  C8_duration_exact_up_to_clock 5 5 "key2" (some "mk") (some "mk") "2d" 2 'd' 86400000
    rfl (by decide) (by decide) emptyStore

/-- C9: a successful regeneration with count = N replaces the catalog with
exactly N products whose ids are exactly 1..N, and getById afterwards
returns none (404) for every id outside 1..N. -/
theorem C9_regenerate_dense_ids (seeds : ℕ → ProductSeed) (count : ℕ)
    (mk env : Option String) (hmk : mk = env) (ps : List Product) :
    (regenerateProductsHandler seeds count mk env ps).1 = RegenResult.okCount count
    ∧ ((regenerateProductsHandler seeds count mk env ps).2).length = count
    ∧ ((regenerateProductsHandler seeds count mk env ps).2).map Product.id
        = (List.range count).map (fun i : ℕ => ((i : ℤ) + 1))
    ∧ ∀ j : ℤ, ¬ (1 ≤ j ∧ j ≤ (count : ℤ)) →
        getProductById ((regenerateProductsHandler seeds count mk env ps).2) (JsInt.int j)
          = none := by
  have hok : regenerateProductsHandler seeds count mk env ps
      = (RegenResult.okCount (generateMockProducts seeds count).length,
          generateMockProducts seeds count) := by
    simp [regenerateProductsHandler, hmk]
  have hlen : (generateMockProducts seeds count).length = count := by
    simp [generateMockProducts]
  refine ⟨by rw [hok]; simp [hlen], by rw [hok]; exact hlen, ?_, ?_⟩
  · rw [hok]
    simp only [generateMockProducts, List.map_map]
    apply List.map_congr_left
    intro i _
    rfl
  · intro j hj
    rw [hok]
    simp only [getProductById]
    rw [List.find?_eq_none]
    intro x hx
    simp only [generateMockProducts, List.mem_map, List.mem_range] at hx
    obtain ⟨i, hi, hxe⟩ := hx
    subst hxe
    show ¬(((i : ℤ) + 1) == j) = true
    simp only [beq_iff_eq]
    omega

/-- C9 witness: regenerating with count 2 yields ids [1, 2], and getById 5
afterwards is none, via the theorem. -/
theorem C9_witness :
    ((regenerateProductsHandler constSeeds 2 (some "mk") (some "mk") []).2).map Product.id
      = (List.range 2).map (fun i : ℕ => ((i : ℤ) + 1))
    ∧ getProductById ((regenerateProductsHandler constSeeds 2 (some "mk") (some "mk") []).2)
        (JsInt.int 5) = none := by
  have h := C9_regenerate_dense_ids constSeeds 2 (some "mk") (some "mk") rfl []
  exact ⟨h.2.2.1, h.2.2.2 5 (by decide)⟩

/-- C10: GET /api/products never mutates the catalog — the route leaves the
module-level products list (contents and element order) exactly as it
found it: line 385 copies the collection before filtering, so the in-place
sort of line 419 acts on that copy, never on the catalog itself. -/
theorem C10_get_products_preserves_catalog (ps : List Product) (q : Query) :
    (getProductsRoute ps q).2 = ps := rfl
